import Mathlib

/-!
Verification of the SingleInstanceBrowser navigation pipeline.

Shallow embedding of the renderer application (`CRendererApplication`,
`src/unnamed/part_001`), the settings loaders (`src/app/src/shared/Settings.ts`
and `src/unnamed/part_000`), and the collaborators they use.  Collaborator
modules of this repository that are not among the given sources
(`URLItem.ts`, `URLHandler.ts`, `BrowserHistory.ts`, `Utils.ts`) are modelled
from the specification; every such definition carries a doc comment starting
with `Modelled from the spec:`.

The renderer is single-threaded; a dispatch of the handler chain is a
sequential walk driven by `doHandleURLCallback`, so it is embedded as a
structurally recursive function over the chain (the recursion depth is bounded
by the number of handlers not yet visited, which is passed as an explicit
bound).  Observable side effects (console calls, handler invocations, history
mutation, rendering, titles, the permission hook) are collected in an event
trace.
-/

/-- Modelled from the spec: the provenance tag of a navigation target
(`URLSource` in the missing `URLItem.ts`).  The code of `part_001` uses
`USER`, `APP` and `PAGE`; the spec's data model additionally names a
`HandlerRedirect` provenance, included here so that statements about it can be
formalised. -/
inductive URLSource where
| USER
| APP
| PAGE
| HANDLER_REDIRECT
deriving DecidableEq, Repr

/-- The navigation-target record (`IURLItem`), fields as used by
`part_001`: the URL as supplied, the normalized URL, the provenance and the
load flag. -/
structure IURLItem where
  OriginalURL : String
  URL : String
  Source : URLSource
  DoLoad : Bool
deriving DecidableEq, Repr

/-- Modelled from the spec: `getURLItem` (missing `URLItem.ts`) builds an
immutable navigation target from a URL and a provenance tag.  `URL` is the
normalized form of the supplied URL; normalization itself is outside this
subsystem and is passed in as the function `norm`.  `OriginalURL` keeps the
URL as supplied, and a target built this way is a real target (`DoLoad`). -/
def getURLItem (norm : String → String) (url : String) (source : URLSource) : IURLItem :=
  { OriginalURL := url, URL := norm url, Source := source, DoLoad := true }

/-!
The handler result codes (`HandleURL` in the missing `URLHandler.ts`) are
modelled from the spec.  Results are plain numbers in the code; the exact
numeric values are immaterial (the dispatch only compares them for
equality), only their distinctness matters.
-/

namespace HandleURL

/-- Modelled from the spec: the `ERROR` result code. -/
def ERROR : Nat := 0

/-- Modelled from the spec: the `NONE` result code. -/
def NONE : Nat := 1

/-- Modelled from the spec: the `CONTINUE` result code. -/
def CONTINUE : Nat := 2

/-- Modelled from the spec: the `STOP` result code. -/
def STOP : Nat := 3

end HandleURL

/-- A URL handler, reduced to its observable behaviour: given the URL and the
provenance it is invoked with, it reports a result code and an optional
redirect URL through the callback (`handleURL(url, source, callback)`).  The
handlers of a chain are distinct instances, so the chain position
(`URLHandlers.indexOf(this.currentURLHandler)`) is represented by an index. -/
def Handler := String → URLSource → Nat × Option String

/-- Observable side effects of the renderer, one constructor per call site
kind: console output (`console.error` / `console.log` / `console.warn` /
`console.info`), a handler invocation with its arguments, installing the
permission-request hook, a history `addOrUpdateItem` call, rendering content
into the web view, and setting the window title. -/
inductive Ev where
| consoleError
| consoleLog
| consoleWarn
| consoleInfo
| invoke (idx : Nat) (url : String) (src : URLSource)
| permInstalled
| addOrUpdate (url : String)
| render (content : String)
| setTitle (t : String)
deriving DecidableEq, Repr

/-- The terminal outcome of one dispatch, naming (with the spec's words) which
return path of `doHandleURLCallback` ended the chain walk: `Handled` for the
`STOP` case, `Aborted` for the `ERROR` and unknown-result cases, `Exhausted`
when the last handler reported `NONE`/`CONTINUE` and no next handler exists. -/
inductive Outcome where
| Handled
| Aborted
| Exhausted
deriving DecidableEq, Repr

/-- Modelled from the spec: the browser history (missing
`BrowserHistory.ts`).  The doubly linked list of entries reachable from the
root is represented as the list of their URLs (root first) together with the
cursor position; an entry has a `Previous` neighbour iff its index is
positive and a `Next` neighbour iff its index is below the last index.
`Size` is `items.length`. -/
structure BHistory where
  items : List String
  cur : Nat
deriving DecidableEq, Repr

/-- Modelled from the spec: `BrowserHistory.addOrUpdateItem` — if the given
URL equals the URL of the current entry, the history is unchanged; otherwise
the forward branch is discarded, a new entry is appended after the current
one and the cursor advances to it. -/
def addOrUpdateItem (h : BHistory) (url : String) : BHistory :=
  if h.items.get? h.cur = some url then h
  else { items := h.items.take (h.cur + 1) ++ [url], cur := h.cur + 1 }

/-- The mutable state of `CRendererApplication` that the embedded operations
read or write: the loaded handler chain, the per-dispatch index of the
current handler (`currentURLHandler`) and current target (`currentURLItem`),
the history with its cursor (`history` / `currentHistoryItem`), the loading
indicator (`spinner.style.visibility === "hidden"`), the window title, the
web-view `src` attribute, the URL field, the error page, and the two
navigation buttons' `disabled` flags. -/
structure RState where
  URLHandlers : List Handler
  currentURLHandlerIdx : Nat
  currentURLItem : IURLItem
  history : BHistory
  spinnerHidden : Bool
  title : String
  webViewSrc : String
  urlField : String
  errorPage : String
  goBackButtonDisabled : Bool
  goForwardButtonDisabled : Bool

/-- The constant `blankPage` of `CRendererApplication`. -/
def blankPage : String := "_blank"

/-- The constant `blankPageContent` of `CRendererApplication`
(`encodeURI` applied to the empty HTML document). -/
def blankPageContent : String :=
  "data:text/html,%3Chtml%3E%3Chead%3E%3C/head%3E%3Cbody%3E%3C/body%3E%3C/html%3E"

/-- JavaScript truthiness of the optional `redirectURL` argument: absent and
the empty string are falsy. -/
def truthy : Option String → Bool
| none => false
| some s => !(s == "")

/-- Result of one continuation step: either the dispatch terminated on this
step (`done`, with the return path named by the `Outcome`), or the next
handler is to be invoked on the carried state (`next`). -/
inductive StepRes where
| done (st : RState) (evs : List Ev) (oc : Outcome)
| next (st : RState) (evs : List Ev)

/-- The state carried by a step result. -/
def stepState : StepRes → RState
| .done st _ _ => st
| .next st _ => st

/-- One step of the continuation `doHandleURLCallback` of `part_001`
(lines 210–257), for a result code and optional redirect reported by the
handler at `st.currentURLHandlerIdx`:
`ERROR` logs and returns; `NONE`/`CONTINUE` log, log the redirect if one is
present (truthy), then either replace the current target by
`getURLItem(redirectURL, URLSource.PAGE)` (when a redirect is present) and
advance to the next handler, or — when no next handler exists — install the
permission-request hook; `STOP` logs and returns; any other result logs an
error and returns.  The `finally` clause hides the loading indicator unless
the result was `NONE` or `CONTINUE`. -/
def doHandleURLCallback (norm : String → String) (st : RState) (res : Nat)
    (redir : Option String) : StepRes :=
  if res = HandleURL.ERROR then
    .done { st with spinnerHidden := true } [Ev.consoleError] Outcome.Aborted
  else if res = HandleURL.NONE ∨ res = HandleURL.CONTINUE then
    let caseEvs : List Ev := [Ev.consoleLog]
    let redirEvs : List Ev := if truthy redir then [Ev.consoleLog] else []
    if st.currentURLHandlerIdx + 1 < st.URLHandlers.length then
      let item :=
        if truthy redir then getURLItem norm (redir.getD "") URLSource.PAGE
        else st.currentURLItem
      .next { st with currentURLItem := item,
                      currentURLHandlerIdx := st.currentURLHandlerIdx + 1 }
        (caseEvs ++ redirEvs)
    else
      .done st (caseEvs ++ redirEvs ++ [Ev.permInstalled]) Outcome.Exhausted
  else if res = HandleURL.STOP then
    .done { st with spinnerHidden := true } [Ev.consoleLog] Outcome.Handled
  else
    .done { st with spinnerHidden := true } [Ev.consoleError] Outcome.Aborted

/-- Result of a whole dispatch: final state, event trace, outcome. -/
structure RunRes where
  st : RState
  evs : List Ev
  oc : Outcome

/-- The chain walk from the current handler onwards: invoke the handler at
`currentURLHandlerIdx` with the current target's URL and source, feed its
reported result into `doHandleURLCallback`, and continue while that step
advances.  The first argument bounds the number of steps; the walk strictly
increases the handler index, so `runFrom` below instantiates the bound with
the number of handlers not yet visited, which makes it exact. -/
def runFromFuel (norm : String → String) : Nat → RState → RunRes
| 0, st => ⟨st, [], Outcome.Exhausted⟩
| fuel + 1, st =>
  match st.URLHandlers.get? st.currentURLHandlerIdx with
  | none => ⟨st, [], Outcome.Exhausted⟩
  | some hdl =>
    let pr := hdl st.currentURLItem.URL st.currentURLItem.Source
    let iev := Ev.invoke st.currentURLHandlerIdx st.currentURLItem.URL st.currentURLItem.Source
    match doHandleURLCallback norm st pr.1 pr.2 with
    | .done st' evs oc => ⟨st', iev :: evs, oc⟩
    | .next st' evs =>
      let r := runFromFuel norm fuel st'
      ⟨r.st, iev :: (evs ++ r.evs), r.oc⟩

/-- Dispatch from the current handler to the end of the chain. -/
def runFrom (norm : String → String) (st : RState) : RunRes :=
  runFromFuel norm (st.URLHandlers.length - st.currentURLHandlerIdx) st

/-- `loadURL` of `part_001` (lines 171–192): with no configured handlers it
only warns; for the blank target it renders the empty content page and sets
the default title; otherwise it records the target in the history (when
`updateHistory`), makes handler 0 current, sets the title to the target URL,
shows the loading indicator and starts the chain. -/
def loadURL (norm : String → String) (appName : String) (st : RState)
    (urlItem : IURLItem) (updateHistory : Bool) : RState × List Ev :=
  if st.URLHandlers.length = 0 then
    (st, [Ev.consoleWarn])
  else if urlItem.OriginalURL = blankPage then
    ({ st with webViewSrc := blankPageContent, title := appName },
     [Ev.render blankPageContent, Ev.setTitle appName])
  else
    let stH :=
      if updateHistory then { st with history := addOrUpdateItem st.history urlItem.URL }
      else st
    let histEvs : List Ev := if updateHistory then [Ev.addOrUpdate urlItem.URL] else []
    let st2 := { stH with currentURLHandlerIdx := 0, currentURLItem := urlItem,
                          title := urlItem.URL, spinnerHidden := false }
    let r := runFrom norm st2
    (r.st, histEvs ++ (Ev.setTitle urlItem.URL :: r.evs))

/-- `goBack` of `part_001` (lines 263–268): if the current history item has a
`Previous` neighbour, move the cursor to it and load its URL with
`updateHistory = false`; otherwise do nothing. -/
def goBack (norm : String → String) (appName : String) (st : RState) : RState × List Ev :=
  if 0 < st.history.cur then
    let st' := { st with history := { st.history with cur := st.history.cur - 1 } }
    loadURL norm appName st'
      (getURLItem norm (st'.history.items.getD st'.history.cur "") URLSource.USER) false
  else (st, [])

/-- `goForward` of `part_001` (lines 274–279): symmetric to `goBack` for the
`Next` neighbour. -/
def goForward (norm : String → String) (appName : String) (st : RState) : RState × List Ev :=
  if st.history.cur + 1 < st.history.items.length then
    let st' := { st with history := { st.history with cur := st.history.cur + 1 } }
    loadURL norm appName st'
      (getURLItem norm (st'.history.items.getD st'.history.cur "") URLSource.USER) false
  else (st, [])

/-- `onDidNavigate` of `part_001` (lines 397–411): update the URL field and
recompute both navigation buttons' `disabled` flags.  The code's
`currentHistoryItem === null` conjunct is vacuous here because the cursor of
the history model always denotes the current entry; `Previous === undefined`
corresponds to cursor position 0 and `Next === undefined` to the cursor being
on the last entry. -/
def onDidNavigate (st : RState) (eventUrl : String) : RState :=
  let fieldVal :=
    if eventUrl = blankPageContent then ""
    else if eventUrl = st.errorPage then st.currentURLItem.URL
    else eventUrl
  { st with
    urlField := fieldVal,
    goBackButtonDisabled :=
      decide (st.history.items.length < 2) || !(decide (0 < st.history.cur)),
    goForwardButtonDisabled :=
      decide (st.history.items.length < 2) ||
        !(decide (st.history.cur + 1 < st.history.items.length)) }

/-- `onDidNavigateInPage` of `part_001` (lines 418–427): record the reported
URL in the history, update the URL field and recompute both buttons'
`disabled` flags from the updated history. -/
def onDidNavigateInPage (norm : String → String) (st : RState) (eventUrl : String) : RState :=
  let h := addOrUpdateItem st.history (getURLItem norm eventUrl URLSource.PAGE).URL
  { st with
    history := h, urlField := eventUrl,
    goBackButtonDisabled := decide (h.items.length < 2) || !(decide (0 < h.cur)),
    goForwardButtonDisabled :=
      decide (h.items.length < 2) || !(decide (h.cur + 1 < h.items.length)) }

/-- JavaScript `Array.prototype.indexOf` on string arrays: the index of the
first occurrence, `-1` if absent. -/
def arrayIndexOf : List String → String → Int
| [], _ => -1
| x :: xs, s =>
  if x = s then 0
  else
    let r := arrayIndexOf xs s
    if r = -1 then -1 else r + 1

/-- `onPermissionRequest` of `part_001` (lines 385–390): the permission is
granted iff it occurs in the configured `Permissions` list. -/
def onPermissionRequest (permissions : List String) (permission : String) : Bool :=
  decide (arrayIndexOf permissions permission > -1)

/-- A configured URL-handler descriptor as consumed by `loadURLHandlers`
(the settings entry shape: load and active flags, the module source path and
the class name; the opaque `Config` payload is not consulted by the loader
and is omitted). -/
structure URLHandlerEntry where
  Load : Bool
  Active : Bool
  Source : String
  ClassName : String

/-- `loadURLHandlers` of `part_001` (lines 70–89): walk the configured
entries in order; for each entry with a non-empty `Source`, construct the
handler (`require` + `getURLHandlerByClassName`, modelled by the `construct`
argument since `URLHandler.ts` is not among the sources) and append it to the
chain; a construction failure is logged (`console.error`) and the entry is
skipped.  Entries with an empty `Source` are skipped silently. -/
def loadURLHandlers (construct : URLHandlerEntry → Option Handler) :
    List URLHandlerEntry → List Handler × List Ev
| [] => ([], [])
| e :: rest =>
  if e.Source ≠ "" then
    match construct e with
    | some h =>
      let r := loadURLHandlers construct rest
      (h :: r.1, r.2)
    | none =>
      let r := loadURLHandlers construct rest
      (r.1, Ev.consoleError :: r.2)
  else loadURLHandlers construct rest

/-- The handler-invocation indices occurring in a trace, in order. -/
def invokes (evs : List Ev) : List Nat :=
  evs.filterMap fun e =>
    match e with
    | Ev.invoke i _ _ => some i
    | _ => none

/-- A handler that reports `NONE` with a redirect to `http://r`. -/
def hNoneRedirect : Handler := fun _ _ => (HandleURL.NONE, some "http://r")

/-- A handler that reports `CONTINUE` with no redirect. -/
def hContinue : Handler := fun _ _ => (HandleURL.CONTINUE, none)

/-- A handler that reports `STOP` with no redirect. -/
def hStop : Handler := fun _ _ => (HandleURL.STOP, none)

/-- A renderer state right after startup, with the given handler chain, the
initial single-entry history and the target `http://a` current. -/
def baseState (handlers : List Handler) : RState :=
  { URLHandlers := handlers, currentURLHandlerIdx := 0,
    currentURLItem := getURLItem (fun s => s) "http://a" URLSource.USER,
    history := { items := [blankPage], cur := 0 },
    spinnerHidden := false, title := "t", webViewSrc := "", urlField := "",
    errorPage := "", goBackButtonDisabled := true, goForwardButtonDisabled := true }

/-- A terminating continuation step does not touch the chain, the target or
the history, and its own events invoke no handler and never write the
history. -/
lemma step_done_facts (norm : String → String) (st : RState) (res : Nat)
    (redir : Option String) (st' : RState) (evs : List Ev) (oc : Outcome)
    (h : doHandleURLCallback norm st res redir = .done st' evs oc) :
    st'.URLHandlers = st.URLHandlers ∧ st'.history = st.history ∧
      invokes evs = [] ∧ ∀ u, Ev.addOrUpdate u ∉ evs := by
  unfold doHandleURLCallback at h
  dsimp only at h
  by_cases h1 : res = HandleURL.ERROR
  · rw [if_pos h1] at h
    cases h
    exact ⟨rfl, rfl, rfl, fun u hu => by simp at hu⟩
  · rw [if_neg h1] at h
    by_cases h2 : res = HandleURL.NONE ∨ res = HandleURL.CONTINUE
    · rw [if_pos h2] at h
      by_cases htr : truthy redir = true
      · simp only [if_pos htr] at h
        by_cases hnx : st.currentURLHandlerIdx + 1 < st.URLHandlers.length
        · rw [if_pos hnx] at h
          cases h
        · rw [if_neg hnx] at h
          cases h
          exact ⟨rfl, rfl, rfl, fun u hu => by simp at hu⟩
      · simp only [if_neg htr] at h
        by_cases hnx : st.currentURLHandlerIdx + 1 < st.URLHandlers.length
        · rw [if_pos hnx] at h
          cases h
        · rw [if_neg hnx] at h
          cases h
          exact ⟨rfl, rfl, rfl, fun u hu => by simp at hu⟩
    · rw [if_neg h2] at h
      by_cases h3 : res = HandleURL.STOP
      · rw [if_pos h3] at h
        cases h
        exact ⟨rfl, rfl, rfl, fun u hu => by simp at hu⟩
      · rw [if_neg h3] at h
        cases h
        exact ⟨rfl, rfl, rfl, fun u hu => by simp at hu⟩

/-- An advancing continuation step keeps the chain and the history, moves the
handler index to the immediate successor (which is still inside the chain),
and its own events invoke no handler and never write the history. -/
lemma step_next_facts (norm : String → String) (st : RState) (res : Nat)
    (redir : Option String) (st' : RState) (evs : List Ev)
    (h : doHandleURLCallback norm st res redir = .next st' evs) :
    st'.URLHandlers = st.URLHandlers ∧ st'.history = st.history ∧
      st'.currentURLHandlerIdx = st.currentURLHandlerIdx + 1 ∧
      st'.currentURLHandlerIdx < st.URLHandlers.length ∧
      invokes evs = [] ∧ ∀ u, Ev.addOrUpdate u ∉ evs := by
  unfold doHandleURLCallback at h
  dsimp only at h
  by_cases h1 : res = HandleURL.ERROR
  · rw [if_pos h1] at h
    cases h
  · rw [if_neg h1] at h
    by_cases h2 : res = HandleURL.NONE ∨ res = HandleURL.CONTINUE
    · rw [if_pos h2] at h
      by_cases htr : truthy redir = true
      · simp only [if_pos htr] at h
        by_cases hnx : st.currentURLHandlerIdx + 1 < st.URLHandlers.length
        · rw [if_pos hnx] at h
          cases h
          exact ⟨rfl, rfl, rfl, hnx, rfl, fun u hu => by simp at hu⟩
        · rw [if_neg hnx] at h
          cases h
      · simp only [if_neg htr] at h
        by_cases hnx : st.currentURLHandlerIdx + 1 < st.URLHandlers.length
        · rw [if_pos hnx] at h
          cases h
          exact ⟨rfl, rfl, rfl, hnx, rfl, fun u hu => by simp at hu⟩
        · rw [if_neg hnx] at h
          cases h
    · rw [if_neg h2] at h
      by_cases h3 : res = HandleURL.STOP
      · rw [if_pos h3] at h
        cases h
      · rw [if_neg h3] at h
        cases h

/-- The chain walk never mutates the history structure and never emits a
history write, and it leaves the handler chain itself unchanged. -/
lemma runFromFuel_frame (norm : String → String) :
    ∀ (fuel : Nat) (st : RState),
      (runFromFuel norm fuel st).st.history = st.history ∧
        (runFromFuel norm fuel st).st.URLHandlers = st.URLHandlers ∧
        ∀ u, Ev.addOrUpdate u ∉ (runFromFuel norm fuel st).evs := by
  intro fuel
  induction fuel with
  | zero =>
    intro st
    exact ⟨rfl, rfl, fun u hu => by simp [runFromFuel] at hu⟩
  | succ n ih =>
    intro st
    unfold runFromFuel
    cases hget : st.URLHandlers.get? st.currentURLHandlerIdx with
    | none => exact ⟨rfl, rfl, fun u hu => by simp at hu⟩
    | some hdl =>
      simp only
      cases hstep : doHandleURLCallback norm st
          (hdl st.currentURLItem.URL st.currentURLItem.Source).1
          (hdl st.currentURLItem.URL st.currentURLItem.Source).2 with
      | done st' evs oc =>
        obtain ⟨hh, hhist, _, hmem⟩ := step_done_facts norm st _ _ st' evs oc hstep
        refine ⟨hhist, hh, ?_⟩
        intro u hu
        simp only [List.mem_cons] at hu
        rcases hu with hu | hu
        · cases hu
        · exact hmem u hu
      | next st' evs =>
        obtain ⟨hh, hhist, _, _, _, hmem⟩ := step_next_facts norm st _ _ st' evs hstep
        obtain ⟨ih1, ih2, ih3⟩ := ih st'
        refine ⟨by rw [ih1, hhist], by rw [ih2, hh], ?_⟩
        intro u hu
        simp only [List.mem_cons, List.mem_append] at hu
        rcases hu with hu | hu | hu
        · cases hu
        · exact hmem u hu
        · exact ih3 u hu

/-- The handlers invoked by a chain walk are exactly a contiguous run of
chain positions starting at the current index and staying inside the chain:
they run strictly in chain order and each position occurs at most once. -/
lemma runFromFuel_invokes (norm : String → String) :
    ∀ (fuel : Nat) (st : RState),
      ∃ n, invokes (runFromFuel norm fuel st).evs =
          List.range' st.currentURLHandlerIdx n ∧
        n ≤ st.URLHandlers.length - st.currentURLHandlerIdx := by
  intro fuel
  induction fuel with
  | zero =>
    intro st
    exact ⟨0, by simp [runFromFuel, invokes], Nat.zero_le _⟩
  | succ n ih =>
    intro st
    unfold runFromFuel
    cases hget : st.URLHandlers.get? st.currentURLHandlerIdx with
    | none => exact ⟨0, by simp [invokes], Nat.zero_le _⟩
    | some hdl =>
      simp only
      have hlt : st.currentURLHandlerIdx < st.URLHandlers.length := by
        rcases List.get?_eq_some.mp hget with ⟨h, _⟩
        exact h
      cases hstep : doHandleURLCallback norm st
          (hdl st.currentURLItem.URL st.currentURLItem.Source).1
          (hdl st.currentURLItem.URL st.currentURLItem.Source).2 with
      | done st' evs oc =>
        obtain ⟨_, _, hinv, _⟩ := step_done_facts norm st _ _ st' evs oc hstep
        refine ⟨1, ?_, by omega⟩
        simp [invokes, List.range'] at hinv ⊢
        exact hinv
      | next st' evs =>
        obtain ⟨hh, _, hidx, _, hinv, _⟩ := step_next_facts norm st _ _ st' evs hstep
        obtain ⟨m, ihm, ihle⟩ := ih st'
        refine ⟨m + 1, ?_, ?_⟩
        · simp only [invokes, List.filterMap_cons, List.filterMap_append] at ihm hinv ⊢
          rw [hinv, ihm, hidx, List.range'_succ]
          simp
        · rw [hh, hidx] at ihle
          omega

/-- A chain walk with a positive step bound whose current index denotes a
handler starts by invoking that handler with the current target. -/
lemma runFromFuel_evs_head (norm : String → String) (fuel : Nat) (st : RState)
    (hdl : Handler) (hfuel : 0 < fuel)
    (hget : st.URLHandlers.get? st.currentURLHandlerIdx = some hdl) :
    ∃ t, (runFromFuel norm fuel st).evs =
      Ev.invoke st.currentURLHandlerIdx st.currentURLItem.URL
        st.currentURLItem.Source :: t := by
  cases fuel with
  | zero => omega
  | succ n =>
    unfold runFromFuel
    rw [hget]
    simp only
    cases hstep : doHandleURLCallback norm st
        (hdl st.currentURLItem.URL st.currentURLItem.Source).1
        (hdl st.currentURLItem.URL st.currentURLItem.Source).2 with
    | done st' evs oc => exact ⟨evs, rfl⟩
    | next st' evs => exact ⟨_, rfl⟩

/-- A `NONE`/`CONTINUE` step with a truthy redirect and a next handler
replaces the current target by the redirect target (provenance `PAGE`) and
advances to the next handler. -/
lemma step_none_redirect (norm : String → String) (st : RState) (res : Nat)
    (R : String) (hres : res = HandleURL.NONE ∨ res = HandleURL.CONTINUE)
    (hR : R ≠ "")
    (hnext : st.currentURLHandlerIdx + 1 < st.URLHandlers.length) :
    doHandleURLCallback norm st res (some R) =
      .next { st with currentURLItem := getURLItem norm R URLSource.PAGE,
                      currentURLHandlerIdx := st.currentURLHandlerIdx + 1 }
        [Ev.consoleLog, Ev.consoleLog] := by
  have hne : res ≠ HandleURL.ERROR := by
    rcases hres with h | h <;> subst h <;> decide
  have htr : truthy (some R) = true := by
    simp [truthy, hR]
  simp [doHandleURLCallback, hne, hres, hnext, htr]

/-- The dispatch facts of `runFromFuel_frame`, at the `runFrom` entry
point. -/
lemma runFrom_frame (norm : String → String) (st : RState) :
    (runFrom norm st).st.history = st.history ∧
      (runFrom norm st).st.URLHandlers = st.URLHandlers ∧
      ∀ u, Ev.addOrUpdate u ∉ (runFrom norm st).evs :=
  runFromFuel_frame norm _ st

/-- The invocation-order fact of `runFromFuel_invokes`, at the `runFrom`
entry point. -/
lemma runFrom_invokes (norm : String → String) (st : RState) :
    ∃ n, invokes (runFrom norm st).evs = List.range' st.currentURLHandlerIdx n ∧
      n ≤ st.URLHandlers.length - st.currentURLHandlerIdx :=
  runFromFuel_invokes norm _ st

/-- With handlers configured and a non-blank target, `loadURL` with
`updateHistory = false` skips the history update and goes straight to the
dispatch. -/
lemma loadURL_false_eq (norm : String → String) (appName : String) (st : RState)
    (item : IURLItem) (hlen : ¬ st.URLHandlers.length = 0)
    (hbl : ¬ item.OriginalURL = blankPage) :
    loadURL norm appName st item false =
      ((runFrom norm { st with currentURLHandlerIdx := 0, currentURLItem := item,
                               title := item.URL, spinnerHidden := false }).st,
       Ev.setTitle item.URL ::
         (runFrom norm { st with currentURLHandlerIdx := 0, currentURLItem := item,
                                 title := item.URL, spinnerHidden := false }).evs) := by
  unfold loadURL
  rw [if_neg hlen, if_neg hbl]
  rfl

/-- A `loadURL` call with `updateHistory = false` never mutates the history
and never emits a history write. -/
lemma loadURL_frame (norm : String → String) (appName : String) (st : RState)
    (item : IURLItem) :
    (loadURL norm appName st item false).1.history = st.history ∧
      ∀ u, Ev.addOrUpdate u ∉ (loadURL norm appName st item false).2 := by
  by_cases hlen : st.URLHandlers.length = 0
  · unfold loadURL
    rw [if_pos hlen]
    exact ⟨rfl, fun u hu => by simp at hu⟩
  · by_cases hbl : item.OriginalURL = blankPage
    · unfold loadURL
      rw [if_neg hlen, if_pos hbl]
      exact ⟨rfl, fun u hu => by simp at hu⟩
    · rw [loadURL_false_eq norm appName st item hlen hbl]
      obtain ⟨hh, _, hmem⟩ :=
        runFrom_frame norm
          { st with currentURLHandlerIdx := 0, currentURLItem := item,
                    title := item.URL, spinnerHidden := false }
      refine ⟨hh, ?_⟩
      intro u hu
      simp only [List.mem_cons] at hu
      rcases hu with hu | hu
      · cases hu
      · exact hmem u hu

/-- **C1** — counterexample to the claim as stated.  For the chain
`[H1 -> NONE(redirect = "http://r"), H2 -> STOP]` the second handler is
invoked with the redirect URL but with provenance `PAGE`
(`getURLItem(redirectURL, URLSource.PAGE)` in `doHandleURLCallback`), never
with `HANDLER_REDIRECT`: the full event trace contains
`invoke 1 "http://r" PAGE` and no invocation tagged `HANDLER_REDIRECT`. -/
theorem claim_C1_counterexample :
    (runFrom (fun s => s) (baseState [hNoneRedirect, hStop])).evs =
      [Ev.invoke 0 "http://a" URLSource.USER, Ev.consoleLog, Ev.consoleLog,
       Ev.invoke 1 "http://r" URLSource.PAGE, Ev.consoleLog] ∧
    (runFrom (fun s => s) (baseState [hNoneRedirect, hStop])).evs.count
        (Ev.invoke 1 "http://r" URLSource.PAGE) = 1 ∧
    (runFrom (fun s => s) (baseState [hNoneRedirect, hStop])).evs.count
        (Ev.invoke 1 "http://r" URLSource.HANDLER_REDIRECT) = 0 := by
  refine ⟨?_, ?_, ?_⟩ <;> decide

/-- **C1** (amended).  When the current handler reports `NONE` with a
non-empty redirect URL `R` and a next handler exists, that next handler is
invoked with the navigation target built from `R`, i.e. with URL the
normalized form of `R` — and with `Source = PAGE`, not `HandlerRedirect`. -/
theorem claim_C1_corrected (norm : String → String) (st : RState) (h1 : Handler)
    (R : String)
    (hget : st.URLHandlers.get? st.currentURLHandlerIdx = some h1)
    (hres : h1 st.currentURLItem.URL st.currentURLItem.Source =
      (HandleURL.NONE, some R))
    (hR : R ≠ "")
    (hnext : st.currentURLHandlerIdx + 1 < st.URLHandlers.length) :
    Ev.invoke (st.currentURLHandlerIdx + 1) (norm R) URLSource.PAGE ∈
        (runFrom norm st).evs ∧
      (getURLItem norm R URLSource.PAGE).URL = norm R ∧
      (getURLItem norm R URLSource.PAGE).Source = URLSource.PAGE := by
  refine ⟨?_, rfl, rfl⟩
  obtain ⟨k, hk⟩ :
      ∃ k, st.URLHandlers.length - st.currentURLHandlerIdx = k + 1 :=
    ⟨st.URLHandlers.length - st.currentURLHandlerIdx - 1, by omega⟩
  have hkpos : 0 < k := by omega
  unfold runFrom
  rw [hk]
  unfold runFromFuel
  rw [hget]
  dsimp only
  rw [hres]
  dsimp only
  rw [step_none_redirect norm st HandleURL.NONE R (Or.inl rfl) hR hnext]
  dsimp only
  obtain ⟨t, ht⟩ :=
    runFromFuel_evs_head norm k
      { st with currentURLItem := getURLItem norm R URLSource.PAGE,
                currentURLHandlerIdx := st.currentURLHandlerIdx + 1 }
      (st.URLHandlers.get ⟨st.currentURLHandlerIdx + 1, hnext⟩) hkpos
      (List.get?_eq_get hnext)
  rw [ht]
  simp [getURLItem]

/-- **C1** — witness for the amended theorem at the concrete chain of the
counterexample. -/
theorem claim_C1_witness :
    (("http://r" : String) == "") = false ∧
      (baseState [hNoneRedirect, hStop]).currentURLHandlerIdx + 1 <
        (baseState [hNoneRedirect, hStop]).URLHandlers.length ∧
      Ev.invoke 1 "http://r" URLSource.PAGE ∈
        (runFrom (fun s => s) (baseState [hNoneRedirect, hStop])).evs :=
  ⟨by decide, by decide,
    (claim_C1_corrected (fun s => s) (baseState [hNoneRedirect, hStop])
      hNoneRedirect "http://r" rfl rfl (by decide) (by decide)).1⟩

/-- **C7** (confirmed).  A result code outside
`{ERROR, NONE, CONTINUE, STOP}` makes the continuation behave exactly as for
`ERROR`: the very same step result — an error log, the dispatch terminated
as `Aborted` with the state unchanged except for hiding the loading
indicator, so no further handler is invoked and no redirect is applied. -/
theorem claim_C7 (norm : String → String) (st : RState) (res : Nat)
    (redir : Option String)
    (h0 : res ≠ HandleURL.ERROR) (h1 : res ≠ HandleURL.NONE)
    (h2 : res ≠ HandleURL.CONTINUE) (h3 : res ≠ HandleURL.STOP) :
    doHandleURLCallback norm st res redir =
        doHandleURLCallback norm st HandleURL.ERROR redir ∧
      doHandleURLCallback norm st res redir =
        .done { st with spinnerHidden := true } [Ev.consoleError] Outcome.Aborted := by
  have hu : doHandleURLCallback norm st res redir =
      .done { st with spinnerHidden := true } [Ev.consoleError] Outcome.Aborted := by
    unfold doHandleURLCallback
    rw [if_neg h0, if_neg (by simp [h1, h2]), if_neg h3]
  have he : doHandleURLCallback norm st HandleURL.ERROR redir =
      .done { st with spinnerHidden := true } [Ev.consoleError] Outcome.Aborted := by
    unfold doHandleURLCallback
    rw [if_pos rfl]
  exact ⟨by rw [hu, he], hu⟩

/-- **C7** — witness at the unknown result code `99`. -/
theorem claim_C7_witness :
    ((99 : Nat) == HandleURL.ERROR) = false ∧
      ((99 : Nat) == HandleURL.NONE) = false ∧
      ((99 : Nat) == HandleURL.CONTINUE) = false ∧
      ((99 : Nat) == HandleURL.STOP) = false ∧
      doHandleURLCallback (fun s => s) (baseState [hStop]) 99 none =
        doHandleURLCallback (fun s => s) (baseState [hStop]) HandleURL.ERROR none :=
  ⟨by decide, by decide, by decide, by decide,
    (claim_C7 (fun s => s) (baseState [hStop]) 99 none (by decide) (by decide)
      (by decide) (by decide)).1⟩

/-- **C8** (confirmed).  In a continuation step entered with the loading
indicator visible, the step leaves the indicator hidden iff the reported
result code is terminal (anything other than `NONE`/`CONTINUE`); after a
`NONE`/`CONTINUE` result the indicator stays visible — also in the
exhausted case where no next handler exists. -/
theorem claim_C8 (norm : String → String) (st : RState) (res : Nat)
    (redir : Option String) (hsp : st.spinnerHidden = false) :
    (stepState (doHandleURLCallback norm st res redir)).spinnerHidden = true ↔
      ¬(res = HandleURL.NONE ∨ res = HandleURL.CONTINUE) := by
  by_cases h1 : res = HandleURL.ERROR
  · subst h1
    unfold doHandleURLCallback
    rw [if_pos rfl]
    simp [stepState, HandleURL.ERROR, HandleURL.NONE, HandleURL.CONTINUE]
  · by_cases h2 : res = HandleURL.NONE ∨ res = HandleURL.CONTINUE
    · unfold doHandleURLCallback
      rw [if_neg h1, if_pos h2]
      dsimp only
      by_cases hnx : st.currentURLHandlerIdx + 1 < st.URLHandlers.length
      · rw [if_pos hnx]
        simp [stepState, hsp, h2]
      · rw [if_neg hnx]
        simp [stepState, hsp, h2]
    · by_cases h3 : res = HandleURL.STOP
      · subst h3
        unfold doHandleURLCallback
        rw [if_neg h1, if_neg h2, if_pos rfl]
        simp [stepState, h2]
      · unfold doHandleURLCallback
        rw [if_neg h1, if_neg h2, if_neg h3]
        simp [stepState, h2]

/-- **C8** — witness: a `CONTINUE` step (with a next handler still pending)
keeps the indicator visible. -/
theorem claim_C8_witness :
    (baseState [hContinue, hStop]).spinnerHidden = false ∧
      (stepState (doHandleURLCallback (fun s => s) (baseState [hContinue, hStop])
        HandleURL.CONTINUE none)).spinnerHidden = false :=
  ⟨rfl, by
    have h :=
      claim_C8 (fun s => s) (baseState [hContinue, hStop]) HandleURL.CONTINUE none rfl
    simp [HandleURL.NONE, HandleURL.CONTINUE] at h
    exact h⟩

/-- **C3** (confirmed).  (i) The positions invoked during a chain walk form a
contiguous, strictly increasing run of chain positions starting at the
current index and never leaving the chain — so handlers run strictly in
chain order, each at most once per dispatch.  (ii) A `STOP` or `ERROR`
result terminates the step at once, with no further handler invoked.
(iii) A `NONE`/`CONTINUE` result advances to the immediate next handler when
one exists, and (iv) otherwise terminates the dispatch as `Exhausted`.
(v) For the chain `[H1 -> CONTINUE, H2 -> STOP]`, exactly `H1` then `H2` are
invoked (each once) and the outcome is `Handled`. -/
theorem claim_C3 :
    (∀ (norm : String → String) (fuel : Nat) (st : RState),
      ∃ n, invokes (runFromFuel norm fuel st).evs =
          List.range' st.currentURLHandlerIdx n ∧
        n ≤ st.URLHandlers.length - st.currentURLHandlerIdx) ∧
    (∀ (norm : String → String) (st : RState) (res : Nat) (redir : Option String),
      res = HandleURL.STOP ∨ res = HandleURL.ERROR →
      ∃ st' evs oc, doHandleURLCallback norm st res redir = .done st' evs oc ∧
        invokes evs = []) ∧
    (∀ (norm : String → String) (st : RState) (res : Nat) (redir : Option String),
      res = HandleURL.NONE ∨ res = HandleURL.CONTINUE →
      st.currentURLHandlerIdx + 1 < st.URLHandlers.length →
      ∃ st' evs, doHandleURLCallback norm st res redir = .next st' evs ∧
        st'.currentURLHandlerIdx = st.currentURLHandlerIdx + 1) ∧
    (∀ (norm : String → String) (st : RState) (res : Nat) (redir : Option String),
      res = HandleURL.NONE ∨ res = HandleURL.CONTINUE →
      ¬ st.currentURLHandlerIdx + 1 < st.URLHandlers.length →
      ∃ evs, doHandleURLCallback norm st res redir = .done st evs Outcome.Exhausted) ∧
    (invokes (runFrom (fun s => s) (baseState [hContinue, hStop])).evs = [0, 1] ∧
      (runFrom (fun s => s) (baseState [hContinue, hStop])).oc = Outcome.Handled) := by
  refine ⟨runFromFuel_invokes, ?_, ?_, ?_, by decide, by decide⟩
  · intro norm st res redir hres
    rcases hres with hres | hres
    · subst hres
      unfold doHandleURLCallback
      rw [if_neg (by decide), if_neg (by decide), if_pos rfl]
      exact ⟨_, _, _, rfl, rfl⟩
    · subst hres
      unfold doHandleURLCallback
      rw [if_pos rfl]
      exact ⟨_, _, _, rfl, rfl⟩
  · intro norm st res redir hres hnx
    have hne : res ≠ HandleURL.ERROR := by
      rcases hres with h | h <;> subst h <;> decide
    unfold doHandleURLCallback
    rw [if_neg hne, if_pos hres]
    dsimp only
    rw [if_pos hnx]
    exact ⟨_, _, rfl, rfl⟩
  · intro norm st res redir hres hnx
    have hne : res ≠ HandleURL.ERROR := by
      rcases hres with h | h <;> subst h <;> decide
    unfold doHandleURLCallback
    rw [if_neg hne, if_pos hres]
    dsimp only
    rw [if_neg hnx]
    exact ⟨_, rfl⟩

/-- **C3** — witness: the concrete two-handler dispatch of the theorem's
last conjunct — `H1` and `H2` invoked exactly once each, in order, outcome
`Handled`. -/
theorem claim_C3_witness :
    invokes (runFrom (fun s => s) (baseState [hContinue, hStop])).evs = [0, 1] ∧
      (runFrom (fun s => s) (baseState [hContinue, hStop])).oc = Outcome.Handled :=
  claim_C3.2.2.2.2

/-- **C4** (confirmed).  `goBack` is a silent no-op when the current history
item has no `Previous` neighbour; otherwise it moves the cursor to that
neighbour and re-loads its URL with `updateHistory = false`, so the history
entries are unchanged and no `addOrUpdateItem` call is made.  `goForward` is
symmetric for the `Next` neighbour. -/
theorem claim_C4 (norm : String → String) (appName : String) (st : RState) :
    (st.history.cur = 0 → goBack norm appName st = (st, [])) ∧
    (0 < st.history.cur →
      (goBack norm appName st).1.history.items = st.history.items ∧
      (goBack norm appName st).1.history.cur = st.history.cur - 1 ∧
      (∀ u, Ev.addOrUpdate u ∉ (goBack norm appName st).2) ∧
      goBack norm appName st =
        loadURL norm appName
          { st with history := { st.history with cur := st.history.cur - 1 } }
          (getURLItem norm (st.history.items.getD (st.history.cur - 1) "")
            URLSource.USER) false) ∧
    (¬ st.history.cur + 1 < st.history.items.length →
      goForward norm appName st = (st, [])) ∧
    (st.history.cur + 1 < st.history.items.length →
      (goForward norm appName st).1.history.items = st.history.items ∧
      (goForward norm appName st).1.history.cur = st.history.cur + 1 ∧
      (∀ u, Ev.addOrUpdate u ∉ (goForward norm appName st).2) ∧
      goForward norm appName st =
        loadURL norm appName
          { st with history := { st.history with cur := st.history.cur + 1 } }
          (getURLItem norm (st.history.items.getD (st.history.cur + 1) "")
            URLSource.USER) false) := by
  refine ⟨?_, ?_, ?_, ?_⟩
  · intro h0
    unfold goBack
    rw [if_neg (by omega)]
  · intro hpos
    have heq : goBack norm appName st =
        loadURL norm appName
          { st with history := { st.history with cur := st.history.cur - 1 } }
          (getURLItem norm (st.history.items.getD (st.history.cur - 1) "")
            URLSource.USER) false := by
      unfold goBack
      rw [if_pos hpos]
    obtain ⟨hh, hmem⟩ :=
      loadURL_frame norm appName
        { st with history := { st.history with cur := st.history.cur - 1 } }
        (getURLItem norm (st.history.items.getD (st.history.cur - 1) "")
          URLSource.USER)
    rw [heq]
    exact ⟨by rw [hh], by rw [hh], hmem, rfl⟩
  · intro h0
    unfold goForward
    rw [if_neg h0]
  · intro hlt
    have heq : goForward norm appName st =
        loadURL norm appName
          { st with history := { st.history with cur := st.history.cur + 1 } }
          (getURLItem norm (st.history.items.getD (st.history.cur + 1) "")
            URLSource.USER) false := by
      unfold goForward
      rw [if_pos hlt]
    obtain ⟨hh, hmem⟩ :=
      loadURL_frame norm appName
        { st with history := { st.history with cur := st.history.cur + 1 } }
        (getURLItem norm (st.history.items.getD (st.history.cur + 1) "")
          URLSource.USER)
    rw [heq]
    exact ⟨by rw [hh], by rw [hh], hmem, rfl⟩

/-- A state whose history has two entries with the cursor on the second, as
after one successful navigation, used to exercise `goBack`/`goForward`. -/
def backState : RState :=
  { baseState [hStop] with
    history := { items := [blankPage, "http://x"], cur := 1 } }

/-- **C4** — witness: at a history `[blank, x]` with the cursor on `x`,
`goBack` keeps the history entries and moves the cursor to 0, and
`goForward` (no `Next` neighbour) is a no-op. -/
theorem claim_C4_witness :
    0 < backState.history.cur ∧
      (goBack (fun s => s) "App" backState).1.history.items =
        backState.history.items ∧
      (goBack (fun s => s) "App" backState).1.history.cur = 0 ∧
      decide (backState.history.cur + 1 < backState.history.items.length) = false ∧
      goForward (fun s => s) "App" backState = (backState, []) :=
  ⟨by decide,
    ((claim_C4 (fun s => s) "App" backState).2.1 (by decide)).1,
    ((claim_C4 (fun s => s) "App" backState).2.1 (by decide)).2.1,
    by decide,
    (claim_C4 (fun s => s) "App" backState).2.2.1 (by decide)⟩

/-- **C6** — counterexample to the claim as stated.  With an *empty* handler
chain, `loadURL` on the blank target only emits a warning: it does not
render the empty content page and does not set the default title (the
chain-emptiness guard comes before the blank-page special case). -/
theorem claim_C6_counterexample :
    loadURL (fun s => s) "App" (baseState [])
        (getURLItem (fun s => s) blankPage URLSource.APP) true =
      (baseState [], [Ev.consoleWarn]) ∧
    (loadURL (fun s => s) "App" (baseState [])
        (getURLItem (fun s => s) blankPage URLSource.APP) true).1.title = "t" ∧
    (("t" : String) == "App") = false ∧
    (loadURL (fun s => s) "App" (baseState [])
        (getURLItem (fun s => s) blankPage URLSource.APP) true).2.count
      (Ev.render blankPageContent) = 0 ∧
    (loadURL (fun s => s) "App" (baseState [])
        (getURLItem (fun s => s) blankPage URLSource.APP) true).2.count
      (Ev.setTitle "App") = 0 :=
  ⟨rfl, rfl, by decide, by decide, by decide⟩

/-- **C6** (amended).  For every *non-empty* handler chain, `loadURL` on a
target whose original URL is the blank page renders the empty content page,
sets the window title to the application name, and returns without touching
the history and without invoking any handler; with an empty chain it only
logs a warning. -/
theorem claim_C6_corrected (norm : String → String) (appName : String)
    (st : RState) (item : IURLItem) (updateHistory : Bool)
    (hne : st.URLHandlers ≠ []) (hbl : item.OriginalURL = blankPage) :
    loadURL norm appName st item updateHistory =
        ({ st with webViewSrc := blankPageContent, title := appName },
         [Ev.render blankPageContent, Ev.setTitle appName]) ∧
      (loadURL norm appName st item updateHistory).1.history = st.history ∧
      (∀ i u s, Ev.invoke i u s ∉ (loadURL norm appName st item updateHistory).2) ∧
      (∀ u, Ev.addOrUpdate u ∉ (loadURL norm appName st item updateHistory).2) := by
  have hlen : ¬ st.URLHandlers.length = 0 := by
    simpa [List.length_eq_zero] using hne
  have heq : loadURL norm appName st item updateHistory =
      ({ st with webViewSrc := blankPageContent, title := appName },
       [Ev.render blankPageContent, Ev.setTitle appName]) := by
    unfold loadURL
    rw [if_neg hlen, if_pos hbl]
  refine ⟨heq, by rw [heq], ?_, ?_⟩
  · intro i u s hu
    rw [heq] at hu
    simp at hu
  · intro u hu
    rw [heq] at hu
    simp at hu

/-- **C6** — witness: the amended theorem at a one-handler chain. -/
theorem claim_C6_witness :
    (baseState [hStop]).URLHandlers.length = 1 ∧
      (getURLItem (fun s => s) blankPage URLSource.APP).OriginalURL = blankPage ∧
      loadURL (fun s => s) "App" (baseState [hStop])
          (getURLItem (fun s => s) blankPage URLSource.APP) true =
        ({ baseState [hStop] with
            webViewSrc := blankPageContent, title := "App" },
         [Ev.render blankPageContent, Ev.setTitle "App"]) :=
  ⟨rfl, rfl,
    (claim_C6_corrected (fun s => s) "App" (baseState [hStop])
      (getURLItem (fun s => s) blankPage URLSource.APP) true
      (by simp [baseState]) rfl).1⟩

/-- **C5** (confirmed).  After `onDidNavigate` the back control is enabled
(not disabled) iff the history has at least two entries and the current item
has a `Previous` neighbour, and the forward control is enabled iff the
history has at least two entries and the current item has a `Next`
neighbour; fewer than two entries disable both controls regardless of the
neighbours.  The same holds after `onDidNavigateInPage`, with respect to the
history it has just updated. -/
theorem claim_C5 (norm : String → String) (st : RState) (u : String) :
    ((onDidNavigate st u).goBackButtonDisabled = false ↔
      2 ≤ st.history.items.length ∧ 0 < st.history.cur) ∧
    ((onDidNavigate st u).goForwardButtonDisabled = false ↔
      2 ≤ st.history.items.length ∧
        st.history.cur + 1 < st.history.items.length) ∧
    (st.history.items.length < 2 →
      (onDidNavigate st u).goBackButtonDisabled = true ∧
      (onDidNavigate st u).goForwardButtonDisabled = true) ∧
    ((onDidNavigateInPage norm st u).goBackButtonDisabled = false ↔
      2 ≤ (onDidNavigateInPage norm st u).history.items.length ∧
        0 < (onDidNavigateInPage norm st u).history.cur) ∧
    ((onDidNavigateInPage norm st u).goForwardButtonDisabled = false ↔
      2 ≤ (onDidNavigateInPage norm st u).history.items.length ∧
        (onDidNavigateInPage norm st u).history.cur + 1 <
          (onDidNavigateInPage norm st u).history.items.length) ∧
    ((onDidNavigateInPage norm st u).history.items.length < 2 →
      (onDidNavigateInPage norm st u).goBackButtonDisabled = true ∧
      (onDidNavigateInPage norm st u).goForwardButtonDisabled = true) := by
  refine ⟨?_, ?_, ?_, ?_, ?_, ?_⟩ <;>
    simp only [onDidNavigate, onDidNavigateInPage, Bool.or_eq_false_iff,
      Bool.or_eq_true_iff, decide_eq_false_iff_not, decide_eq_true_eq,
      Bool.not_eq_false', Bool.not_eq_true', Nat.not_lt] <;>
    omega

/-- **C5** — witness: with the single-entry startup history (size 1) both
controls are disabled after `onDidNavigate`. -/
theorem claim_C5_witness :
    (baseState []).history.items.length < 2 ∧
      (onDidNavigate (baseState []) "http://a").goBackButtonDisabled = true ∧
      (onDidNavigate (baseState []) "http://a").goForwardButtonDisabled = true :=
  ⟨by decide,
    (claim_C5 (fun s => s) (baseState []) "http://a").2.2.1 (by decide)⟩

/-- **C2** — counterexample to the claim as stated.  A descriptor with
`Load = false` and `Active = false` but a non-empty `Source` is loaded into
the chain anyway: `loadURLHandlers` never consults the `Load`/`Active`
flags, so the chain does not equal the `Load && Active` filtering that the
claim demands. -/
theorem claim_C2_counterexample :
    (loadURLHandlers (fun _ => some hStop)
        [{ Load := false, Active := false, Source := "mod.js",
           ClassName := "C" }]).1.length = 1 ∧
    (([{ Load := false, Active := false, Source := "mod.js",
         ClassName := "C" }] : List URLHandlerEntry).filter
      (fun e => e.Load && e.Active)).length = 0 :=
  ⟨rfl, rfl⟩

/-- **C2** (amended).  The chain built at startup contains exactly the
descriptors whose `Source` is non-empty and whose construction succeeds, in
declaration order; the `Load`/`Active` flags are not consulted.  An entry
whose construction fails is logged (one error per such entry) and skipped
while the chain proceeds with the remaining handlers. -/
theorem claim_C2_corrected (construct : URLHandlerEntry → Option Handler)
    (entries : List URLHandlerEntry) :
    (loadURLHandlers construct entries).1 =
        entries.filterMap
          (fun e => if e.Source = "" then none else construct e) ∧
      (loadURLHandlers construct entries).2.length =
        (entries.filter
          (fun e => !(e.Source == "") && (construct e).isNone)).length := by
  induction entries with
  | nil => exact ⟨rfl, rfl⟩
  | cons e rest ih =>
    unfold loadURLHandlers
    by_cases hs : e.Source = ""
    · rw [if_neg (by simp [hs])]
      simpa [List.filterMap_cons, List.filter_cons, hs] using ih
    · rw [if_pos hs]
      cases hc : construct e with
      | some h =>
        simpa [List.filterMap_cons, List.filter_cons, hs, hc] using ih
      | none =>
        simpa [List.filterMap_cons, List.filter_cons, hs, hc] using ih

/-- An auxiliary bound: `arrayIndexOf` never returns anything below `-1`. -/
lemma arrayIndexOf_ge : ∀ (l : List String) (s : String), -1 ≤ arrayIndexOf l s := by
  intro l s
  induction l with
  | nil => simp [arrayIndexOf]
  | cons x xs ih =>
    unfold arrayIndexOf
    by_cases hx : x = s
    · rw [if_pos hx]
      omega
    · rw [if_neg hx]
      dsimp only
      by_cases hr : arrayIndexOf xs s = -1
      · rw [if_pos hr]
      · rw [if_neg hr]
        omega

/-- `arrayIndexOf` reports a non-negative index exactly for the members of
the list. -/
lemma arrayIndexOf_pos_iff (l : List String) (s : String) :
    arrayIndexOf l s > -1 ↔ s ∈ l := by
  induction l with
  | nil => simp [arrayIndexOf]
  | cons x xs ih =>
    unfold arrayIndexOf
    by_cases hx : x = s
    · rw [if_pos hx]
      subst hx
      simp only [List.mem_cons]
      constructor
      · intro _
        exact Or.inl trivial
      · intro _
        omega
    · rw [if_neg hx]
      dsimp only
      by_cases hr : arrayIndexOf xs s = -1
      · rw [if_pos hr]
        simp only [List.mem_cons]
        constructor
        · intro h
          omega
        · intro h
          rcases h with h | h
          · exact absurd h.symm hx
          · have := ih.mpr h
            omega
      · rw [if_neg hr]
        have hge := arrayIndexOf_ge xs s
        simp only [List.mem_cons]
        constructor
        · intro _
          exact Or.inr (ih.mp (by omega))
        · intro _
          omega

/-- **C9** (confirmed).  The installed permission-decision hook grants a
requested permission iff its name occurs in the configured allow-list. -/
theorem claim_C9 (permissions : List String) (permission : String) :
    onPermissionRequest permissions permission = true ↔
      permission ∈ permissions := by
  unfold onPermissionRequest
  rw [decide_eq_true_eq]
  exact arrayIndexOf_pos_iff permissions permission

namespace Utils

/-- Modelled from the spec: `$Utils.normalize` (`Utils.ts` is not among the
sources) returns the configured value unless it is absent or not of the
expected type, in which case it returns the supplied default.  An
absent-or-wrongly-typed configuration value is modelled as `none`. -/
def normalize {α : Type} (v : Option α) (d : α) : α := v.getD d

end Utils

/-!
The settings loader exists in two generations among the sources:
`src/unnamed/part_000` (namespace `Settings0`) and
`src/app/src/shared/Settings.ts` (namespace `SettingsApp`).  Both are
embedded.  The parsed configuration file is modelled as a record of optional
fields (`none` = absent or wrongly typed); `getSettings` takes the outcome
of the guarded read as an `Option` (`none` = the read threw, which the
`try`/`catch` turns into default settings) and returns
`Except Unit`-failure for the unguarded property accesses
(`settings.Window.Left`, `settings.ShortCuts.…`) that throw a `TypeError`
when the respective object is absent — those accesses happen *outside* the
`try`/`catch`.
-/

namespace Settings0

/-- The `Window` block of the `part_000` settings. -/
structure WindowSettings where
  Left : Int
  Top : Int
  Width : Int
  Height : Int
deriving DecidableEq, Repr

/-- The `ShortCuts` block of the `part_000` settings (single strings in this
generation). -/
structure ShortCutSettings where
  Global : Bool
  ToggleAddressBar : String
  ToggleInternalDevTools : String
  ToggleDevTools : String
  FocusLocationBar : String
  InternalReload : String
  Reload : String
  GoBack : String
  GoForward : String
  ExitHTMLFullscreen : String
deriving DecidableEq, Repr

/-- The `Settings` interface of `part_000`. -/
structure Settings where
  Window : WindowSettings
  ShortCuts : ShortCutSettings
  UserAgent : String
  Permissions : List String
  ClearTraces : Bool
  SingleInstance : Bool
  FocusOnNewURL : Bool
deriving DecidableEq, Repr

/-- A parsed `Window` block with possibly absent / wrongly-typed leaves. -/
structure PartialWindow where
  Left : Option Int
  Top : Option Int
  Width : Option Int
  Height : Option Int
deriving DecidableEq, Repr

/-- A parsed `ShortCuts` block with possibly absent / wrongly-typed
leaves. -/
structure PartialShortCuts where
  Global : Option Bool
  ToggleAddressBar : Option String
  ToggleInternalDevTools : Option String
  ToggleDevTools : Option String
  FocusLocationBar : Option String
  InternalReload : Option String
  Reload : Option String
  GoBack : Option String
  GoForward : Option String
  ExitHTMLFullscreen : Option String
deriving DecidableEq, Repr

/-- A parsed configuration file for `part_000`: every field may be absent or
wrongly typed. -/
structure PartialSettings where
  Window : Option PartialWindow
  ShortCuts : Option PartialShortCuts
  UserAgent : Option String
  Permissions : Option (List String)
  ClearTraces : Option Bool
  SingleInstance : Option Bool
  FocusOnNewURL : Option Bool
deriving DecidableEq, Repr

/-- `getDefaultSettings` of `part_000`; `nav` is the value of the
environment expression
`typeof navigator === "undefined" ? "" : navigator.userAgent`. -/
def getDefaultSettings (nav : String) : Settings where
  Window := { Left := 50, Top := 50, Width := 1024, Height := 768 }
  ShortCuts := { Global := true, ToggleAddressBar := "ctrl+alt+a", ToggleInternalDevTools := "ctrl+alt+i", ToggleDevTools := "ctrl+alt+d", FocusLocationBar := "ctrl+alt+l", InternalReload := "ctrl+alt+shift+r", Reload := "ctrl+alt+r", GoBack := "ctrl+alt+left", GoForward := "ctrl+alt+right", ExitHTMLFullscreen := "esc" }
  UserAgent := nav
  Permissions := ["fullscreen"]
  ClearTraces := true
  SingleInstance := true
  FocusOnNewURL := true

/-- `getSettings` of `part_000` (lines 70–111).  `readResult = none` models
`$FSE.readJsonSync` throwing (caught: defaults are returned).  A present
parse result is normalized field by field — but the accesses
`settings.Window.…` and `settings.ShortCuts.…` are not guarded, so an
absent `Window` or `ShortCuts` object makes the function throw
(`.error ()`).  The `UserAgent` leaf is type-checked
(`typeof settings.UserAgent !== "string"`), and the `ToggleDevTools`
normalization default is the source's literal `"ctrl+alt+dx"`. -/
def getSettings (nav : String) (readResult : Option PartialSettings) :
    Except Unit Settings :=
  match readResult with
  | none => .ok (getDefaultSettings nav)
  | some s =>
    let userAgent : String :=
      match s.UserAgent with
      | none => nav
      | some ua => ua
    match s.Window, s.ShortCuts with
    | some w, some sc =>
      .ok { Window := { Left := Utils.normalize w.Left 50, Top := Utils.normalize w.Top 50, Width := Utils.normalize w.Width 1024, Height := Utils.normalize w.Height 768 }, ShortCuts := { Global := Utils.normalize sc.Global true, ToggleAddressBar := Utils.normalize sc.ToggleAddressBar "ctrl+alt+a", ToggleInternalDevTools := Utils.normalize sc.ToggleInternalDevTools "ctrl+alt+i", ToggleDevTools := Utils.normalize sc.ToggleDevTools "ctrl+alt+dx", FocusLocationBar := Utils.normalize sc.FocusLocationBar "ctrl+alt+l", InternalReload := Utils.normalize sc.InternalReload "ctrl+alt+shift+r", Reload := Utils.normalize sc.Reload "ctrl+alt+r", GoBack := Utils.normalize sc.GoBack "ctrl+alt+left", GoForward := Utils.normalize sc.GoForward "ctrl+alt+right", ExitHTMLFullscreen := Utils.normalize sc.ExitHTMLFullscreen "esc" }, UserAgent := userAgent, Permissions := Utils.normalize s.Permissions ["fullscreen"], ClearTraces := Utils.normalize s.ClearTraces true, SingleInstance := Utils.normalize s.SingleInstance true, FocusOnNewURL := Utils.normalize s.FocusOnNewURL true }
    | _, _ => .error ()

end Settings0

namespace SettingsApp

/-- The `Window` block of the `src/app` settings. -/
structure WindowSettings where
  Left : Int
  Top : Int
  LeftTopOfCurrentScreen : Bool
  Width : Int
  Height : Int
  NewRelativeToCurrent : Bool
deriving DecidableEq, Repr

/-- The `ShortCuts` block of the `src/app` settings (string arrays in this
generation). -/
structure ShortCutSettings where
  Global : Bool
  ToggleAddressBar : List String
  ToggleInternalDevTools : List String
  ToggleDevTools : List String
  FocusLocationBar : List String
  NewWindow : List String
  InternalReload : List String
  Reload : List String
  GoBack : List String
  GoForward : List String
  ExitHTMLFullscreen : List String
  ToggleWin32Menu : List String
deriving DecidableEq, Repr

/-- A request-handler descriptor of the `src/app` settings (the opaque
`Config` payload is passed through unread and omitted here). -/
structure RequestHandlerEntry where
  Load : Bool
  Active : Bool
  Source : String
deriving DecidableEq, Repr

/-- The `ISettings` interface of `src/app/src/shared/Settings.ts`.
`RequestHandlers` and `UserAgent` are `Option` because `getSettings` can
leave either `undefined`: `RequestHandlers` is passed through from the
parsed file without normalization, and `UserAgent` is only replaced when it
equals the empty string. -/
structure ISettings where
  Window : WindowSettings
  ShortCuts : ShortCutSettings
  RequestHandlers : Option (List RequestHandlerEntry)
  LogRequests : Bool
  CaptureConsole : Bool
  UserAgent : Option String
  Permissions : List String
  AllowPlugins : Bool
  AllowPopups : Bool
  AllowNewWindows : Bool
  ClearTraces : Bool
  SingleInstance : Bool
  FocusOnNewURL : Bool
  DarwinForceFocus : Bool
  HardwareAcceleration : Bool
  ContentProtection : Bool
  AddressBar : Int
  Win32MenuState : Int
  Homepage : String
  Scheme : String
deriving DecidableEq, Repr

/-- A parsed `Window` block with possibly absent / wrongly-typed leaves. -/
structure PartialWindow where
  Left : Option Int
  Top : Option Int
  LeftTopOfCurrentScreen : Option Bool
  Width : Option Int
  Height : Option Int
  NewRelativeToCurrent : Option Bool
deriving DecidableEq, Repr

/-- A parsed `ShortCuts` block with possibly absent / wrongly-typed
leaves. -/
structure PartialShortCuts where
  Global : Option Bool
  ToggleAddressBar : Option (List String)
  ToggleInternalDevTools : Option (List String)
  ToggleDevTools : Option (List String)
  FocusLocationBar : Option (List String)
  NewWindow : Option (List String)
  InternalReload : Option (List String)
  Reload : Option (List String)
  GoBack : Option (List String)
  GoForward : Option (List String)
  ExitHTMLFullscreen : Option (List String)
  ToggleWin32Menu : Option (List String)
deriving DecidableEq, Repr

/-- A parsed configuration file for `src/app`: every field may be absent or
wrongly typed. -/
structure PartialISettings where
  Window : Option PartialWindow
  ShortCuts : Option PartialShortCuts
  RequestHandlers : Option (List RequestHandlerEntry)
  LogRequests : Option Bool
  CaptureConsole : Option Bool
  UserAgent : Option String
  Permissions : Option (List String)
  AllowPlugins : Option Bool
  AllowPopups : Option Bool
  AllowNewWindows : Option Bool
  ClearTraces : Option Bool
  SingleInstance : Option Bool
  FocusOnNewURL : Option Bool
  DarwinForceFocus : Option Bool
  HardwareAcceleration : Option Bool
  ContentProtection : Option Bool
  AddressBar : Option Int
  Win32MenuState : Option Int
  Homepage : Option String
  Scheme : Option String
deriving DecidableEq, Repr

/-- `getDefaultSettings` of `src/app/src/shared/Settings.ts`;
`uaFallback` is the value of `app.userAgentFallback`. -/
def getDefaultSettings (uaFallback : String) : ISettings where
  Window := { Left := 10, Top := 10, LeftTopOfCurrentScreen := true, Width := 1280, Height := 900, NewRelativeToCurrent := true }
  ShortCuts := { Global := true, ToggleAddressBar := ["mod+t"], ToggleInternalDevTools := ["mod+shift+d"], ToggleDevTools := ["mod+d"], FocusLocationBar := ["mod+l"], NewWindow := ["mod+n"], InternalReload := [""], Reload := ["mod+r", "f5"], GoBack := ["ctrl+alt+left"], GoForward := ["ctrl+alt+right"], ExitHTMLFullscreen := ["esc"], ToggleWin32Menu := ["ctrl+h"] }
  RequestHandlers := some [{ Load := false, Active := false, Source := "../lib/RequestHandlers/RequestLoggerHandler.js" }, { Load := false, Active := false, Source := "../lib/RequestHandlers/FilterRequestHandler.js" }, { Load := false, Active := false, Source := "../lib/RequestHandlers/RequestHandlerTemplate.js" }, { Load := true, Active := true, Source := "../lib/RequestHandlers/DefaultRequestHandler.js" }]
  LogRequests := false
  CaptureConsole := true
  UserAgent := some uaFallback
  Permissions := ["fullscreen"]
  AllowPlugins := false
  AllowPopups := false
  AllowNewWindows := true
  ClearTraces := false
  SingleInstance := true
  FocusOnNewURL := true
  DarwinForceFocus := false
  HardwareAcceleration := true
  ContentProtection := false
  AddressBar := 2
  Win32MenuState := 1
  Homepage := "bb://home"
  Scheme := "bb"

/-- `getSettings` of `src/app/src/shared/Settings.ts` (lines 409–475).
`readResult = none` models `$Utils.requireJSONFile` throwing (caught:
defaults are returned).  A present parse result is normalized field by
field, except: `RequestHandlers` is passed through unchanged, `UserAgent` is
replaced by the fallback only when it equals the empty string (an absent or
wrongly-typed `UserAgent` is kept as is), and `Homepage` is additionally
trimmed and has `$APP_PATH$` substituted by `appPath`
(`APP_INFO.APP_PATH_PKG`).  The accesses `settings.Window.…` and
`settings.ShortCuts.…` are not guarded, so an absent `Window` or
`ShortCuts` object makes the function throw (`.error ()`).  The final
statement clamps `Win32MenuState` to 1 when it is not one of 0, 1, 2. -/
def getSettings (uaFallback : String) (appPath : String)
    (readResult : Option PartialISettings) : Except Unit ISettings :=
  match readResult with
  | none => .ok (getDefaultSettings uaFallback)
  | some s =>
    let userAgent : Option String :=
      if s.UserAgent = some "" then some uaFallback else s.UserAgent
    match s.Window, s.ShortCuts with
    | some w, some sc =>
      let settings : ISettings :=
        { Window := { Left := Utils.normalize w.Left 10, Top := Utils.normalize w.Top 10, LeftTopOfCurrentScreen := Utils.normalize w.LeftTopOfCurrentScreen true, Width := Utils.normalize w.Width 1280, Height := Utils.normalize w.Height 900, NewRelativeToCurrent := Utils.normalize w.NewRelativeToCurrent true }, ShortCuts := { Global := Utils.normalize sc.Global true, ToggleAddressBar := Utils.normalize sc.ToggleAddressBar ["mod+t"], ToggleInternalDevTools := Utils.normalize sc.ToggleInternalDevTools ["mod+shift+d"], ToggleDevTools := Utils.normalize sc.ToggleDevTools ["mod+d"], FocusLocationBar := Utils.normalize sc.FocusLocationBar ["mod+l"], NewWindow := Utils.normalize sc.NewWindow ["mod+n"], InternalReload := Utils.normalize sc.InternalReload [""], Reload := Utils.normalize sc.Reload ["mod+r", "f5"], GoBack := Utils.normalize sc.GoBack ["ctrl+alt+left"], GoForward := Utils.normalize sc.GoForward ["ctrl+alt+right"], ExitHTMLFullscreen := Utils.normalize sc.ExitHTMLFullscreen ["esc"], ToggleWin32Menu := Utils.normalize sc.ToggleWin32Menu ["ctrl+h"] }, RequestHandlers := s.RequestHandlers, LogRequests := Utils.normalize s.LogRequests false, CaptureConsole := Utils.normalize s.CaptureConsole true, UserAgent := userAgent, Permissions := Utils.normalize s.Permissions ["fullscreen"], AllowPlugins := Utils.normalize s.AllowPlugins false, AllowPopups := Utils.normalize s.AllowPopups false, AllowNewWindows := Utils.normalize s.AllowNewWindows true, ClearTraces := Utils.normalize s.ClearTraces false, SingleInstance := Utils.normalize s.SingleInstance true, FocusOnNewURL := Utils.normalize s.FocusOnNewURL true, DarwinForceFocus := Utils.normalize s.DarwinForceFocus false, HardwareAcceleration := Utils.normalize s.HardwareAcceleration true, ContentProtection := Utils.normalize s.ContentProtection false, AddressBar := Utils.normalize s.AddressBar 2, Win32MenuState := Utils.normalize s.Win32MenuState 1, Homepage := ((Utils.normalize s.Homepage "bb://home").trim.replace "$APP_PATH$" appPath), Scheme := Utils.normalize s.Scheme "bb" }
      if settings.Win32MenuState = 0 ∨ settings.Win32MenuState = 1 ∨
          settings.Win32MenuState = 2 then
        .ok settings
      else
        .ok { settings with Win32MenuState := 1 }
    | _, _ => .error ()

/-- An entirely absent parsed `ShortCuts` block. -/
def emptyPartialShortCuts : PartialShortCuts :=
  { Global := none, ToggleAddressBar := none, ToggleInternalDevTools := none,
    ToggleDevTools := none, FocusLocationBar := none, NewWindow := none,
    InternalReload := none, Reload := none, GoBack := none, GoForward := none,
    ExitHTMLFullscreen := none, ToggleWin32Menu := none }

/-- An entirely absent parsed `Window` block. -/
def emptyPartialWindow : PartialWindow :=
  { Left := none, Top := none, LeftTopOfCurrentScreen := none, Width := none,
    Height := none, NewRelativeToCurrent := none }

/-- A parse result with every field absent. -/
def emptyPartialISettings : PartialISettings :=
  { Window := none, ShortCuts := none, RequestHandlers := none,
    LogRequests := none, CaptureConsole := none, UserAgent := none,
    Permissions := none, AllowPlugins := none, AllowPopups := none,
    AllowNewWindows := none, ClearTraces := none, SingleInstance := none,
    FocusOnNewURL := none, DarwinForceFocus := none,
    HardwareAcceleration := none, ContentProtection := none,
    AddressBar := none, Win32MenuState := none, Homepage := none,
    Scheme := none }

end SettingsApp

/-- A parse result whose `ShortCuts` object is present (all leaves absent)
but whose `Window` object is absent. -/
def readNoWindow : SettingsApp.PartialISettings :=
  { SettingsApp.emptyPartialISettings with
    ShortCuts := some SettingsApp.emptyPartialShortCuts }

/-- A parse result whose `Window` and `ShortCuts` objects are present (all
leaves absent) and whose other fields are all absent. -/
def readEmptyObjects : SettingsApp.PartialISettings :=
  { SettingsApp.emptyPartialISettings with
    Window := some SettingsApp.emptyPartialWindow,
    ShortCuts := some SettingsApp.emptyPartialShortCuts }

/-- The settings record produced for `readEmptyObjects` (the default record
is only the `getD` fallback of the projection — the call does return
`.ok`). -/
def appResultEmpty : SettingsApp.ISettings :=
  (SettingsApp.getSettings "ua" "ap" (some readEmptyObjects)).toOption.getD
    (SettingsApp.getDefaultSettings "ua")

/-- **C10** — counterexample to the claim as stated.  (i) A configuration
file that parses but lacks the `Window` object makes `getSettings` throw
(the unguarded `settings.Window.Left` access) instead of returning a
settings record.  (ii) Even with `Window` and `ShortCuts` present, an absent
`RequestHandlers` or `UserAgent` is *not* replaced by its default: both come
out absent in the returned record, so the result is not fully populated. -/
theorem claim_C10_counterexample :
    SettingsApp.getSettings "ua" "ap" (some readNoWindow) = .error () ∧
    (SettingsApp.getSettings "ua" "ap" (some readEmptyObjects)).isOk = true ∧
    appResultEmpty.RequestHandlers = none ∧
    appResultEmpty.UserAgent = none :=
  ⟨rfl, rfl, rfl, rfl⟩

/-- **C10** (amended).  For both generations of the settings loader:
a read or parse failure yields exactly `getDefaultSettings`; a parse result
lacking the `Window` or `ShortCuts` object makes `getSettings` throw; when
both objects are present a record is returned whose absent (or wrongly
typed) normalized leaves are replaced by their defaults — except that the
`src/app` variant passes `RequestHandlers` through unchanged and keeps an
absent `UserAgent` absent. -/
theorem claim_C10_corrected :
    (∀ nav : String,
      Settings0.getSettings nav none = .ok (Settings0.getDefaultSettings nav)) ∧
    (∀ ua ap : String,
      SettingsApp.getSettings ua ap none =
        .ok (SettingsApp.getDefaultSettings ua)) ∧
    (∀ (nav : String) (p : Settings0.PartialSettings),
      p.Window = none ∨ p.ShortCuts = none →
      Settings0.getSettings nav (some p) = .error ()) ∧
    (∀ (ua ap : String) (p : SettingsApp.PartialISettings),
      p.Window = none ∨ p.ShortCuts = none →
      SettingsApp.getSettings ua ap (some p) = .error ()) ∧
    (∀ (nav : String) (p : Settings0.PartialSettings)
      (w : Settings0.PartialWindow) (sc : Settings0.PartialShortCuts),
      p.Window = some w → p.ShortCuts = some sc →
      Settings0.getSettings nav (some p) =
        .ok { Window := { Left := Utils.normalize w.Left 50, Top := Utils.normalize w.Top 50, Width := Utils.normalize w.Width 1024, Height := Utils.normalize w.Height 768 },
              ShortCuts := { Global := Utils.normalize sc.Global true, ToggleAddressBar := Utils.normalize sc.ToggleAddressBar "ctrl+alt+a", ToggleInternalDevTools := Utils.normalize sc.ToggleInternalDevTools "ctrl+alt+i", ToggleDevTools := Utils.normalize sc.ToggleDevTools "ctrl+alt+dx", FocusLocationBar := Utils.normalize sc.FocusLocationBar "ctrl+alt+l", InternalReload := Utils.normalize sc.InternalReload "ctrl+alt+shift+r", Reload := Utils.normalize sc.Reload "ctrl+alt+r", GoBack := Utils.normalize sc.GoBack "ctrl+alt+left", GoForward := Utils.normalize sc.GoForward "ctrl+alt+right", ExitHTMLFullscreen := Utils.normalize sc.ExitHTMLFullscreen "esc" },
              UserAgent := Utils.normalize p.UserAgent nav,
              Permissions := Utils.normalize p.Permissions ["fullscreen"],
              ClearTraces := Utils.normalize p.ClearTraces true,
              SingleInstance := Utils.normalize p.SingleInstance true,
              FocusOnNewURL := Utils.normalize p.FocusOnNewURL true }) ∧
    (∀ (ua ap : String) (p : SettingsApp.PartialISettings)
      (w : SettingsApp.PartialWindow) (sc : SettingsApp.PartialShortCuts),
      p.Window = some w → p.ShortCuts = some sc →
      SettingsApp.getSettings ua ap (some p) =
        .ok { Window := { Left := Utils.normalize w.Left 10, Top := Utils.normalize w.Top 10, LeftTopOfCurrentScreen := Utils.normalize w.LeftTopOfCurrentScreen true, Width := Utils.normalize w.Width 1280, Height := Utils.normalize w.Height 900, NewRelativeToCurrent := Utils.normalize w.NewRelativeToCurrent true },
              ShortCuts := { Global := Utils.normalize sc.Global true, ToggleAddressBar := Utils.normalize sc.ToggleAddressBar ["mod+t"], ToggleInternalDevTools := Utils.normalize sc.ToggleInternalDevTools ["mod+shift+d"], ToggleDevTools := Utils.normalize sc.ToggleDevTools ["mod+d"], FocusLocationBar := Utils.normalize sc.FocusLocationBar ["mod+l"], NewWindow := Utils.normalize sc.NewWindow ["mod+n"], InternalReload := Utils.normalize sc.InternalReload [""], Reload := Utils.normalize sc.Reload ["mod+r", "f5"], GoBack := Utils.normalize sc.GoBack ["ctrl+alt+left"], GoForward := Utils.normalize sc.GoForward ["ctrl+alt+right"], ExitHTMLFullscreen := Utils.normalize sc.ExitHTMLFullscreen ["esc"], ToggleWin32Menu := Utils.normalize sc.ToggleWin32Menu ["ctrl+h"] },
              RequestHandlers := p.RequestHandlers,
              LogRequests := Utils.normalize p.LogRequests false,
              CaptureConsole := Utils.normalize p.CaptureConsole true,
              UserAgent := (if p.UserAgent = some "" then some ua else p.UserAgent),
              Permissions := Utils.normalize p.Permissions ["fullscreen"],
              AllowPlugins := Utils.normalize p.AllowPlugins false,
              AllowPopups := Utils.normalize p.AllowPopups false,
              AllowNewWindows := Utils.normalize p.AllowNewWindows true,
              ClearTraces := Utils.normalize p.ClearTraces false,
              SingleInstance := Utils.normalize p.SingleInstance true,
              FocusOnNewURL := Utils.normalize p.FocusOnNewURL true,
              DarwinForceFocus := Utils.normalize p.DarwinForceFocus false,
              HardwareAcceleration := Utils.normalize p.HardwareAcceleration true,
              ContentProtection := Utils.normalize p.ContentProtection false,
              AddressBar := Utils.normalize p.AddressBar 2,
              Win32MenuState := (if Utils.normalize p.Win32MenuState 1 = 0 ∨ Utils.normalize p.Win32MenuState 1 = 1 ∨ Utils.normalize p.Win32MenuState 1 = 2 then Utils.normalize p.Win32MenuState 1 else 1),
              Homepage := ((Utils.normalize p.Homepage "bb://home").trim.replace "$APP_PATH$" ap),
              Scheme := Utils.normalize p.Scheme "bb" }) := by
  refine ⟨fun nav => rfl, fun ua ap => rfl, ?_, ?_, ?_, ?_⟩
  · intro nav p hp
    rcases hp with hW | hSC
    · cases hsc : p.ShortCuts <;> simp [Settings0.getSettings, hW, hsc]
    · cases hw : p.Window <;> simp [Settings0.getSettings, hw, hSC]
  · intro ua ap p hp
    rcases hp with hW | hSC
    · cases hsc : p.ShortCuts <;> simp [SettingsApp.getSettings, hW, hsc]
    · cases hw : p.Window <;> simp [SettingsApp.getSettings, hw, hSC]
  · intro nav p w sc hW hSC
    unfold Settings0.getSettings
    dsimp only
    rw [hW, hSC]
    cases hu : p.UserAgent <;> rfl
  · intro ua ap p w sc hW hSC
    unfold SettingsApp.getSettings
    dsimp only
    rw [hW, hSC]
    dsimp only
    by_cases hc : Utils.normalize p.Win32MenuState 1 = 0 ∨
        Utils.normalize p.Win32MenuState 1 = 1 ∨
        Utils.normalize p.Win32MenuState 1 = 2
    · rw [if_pos hc, if_pos hc]
    · rw [if_neg hc, if_neg hc]

/-- A parse result for `part_000` with every field absent, `Window`
included. -/
def read0NoWindow : Settings0.PartialSettings :=
  { Window := none, ShortCuts := none, UserAgent := none, Permissions := none,
    ClearTraces := none, SingleInstance := none, FocusOnNewURL := none }

/-- **C10** — witness for the amended theorem: the defaults case of both
loaders, and the throwing case at a concrete parse result without a
`Window` object. -/
theorem claim_C10_witness :
    Settings0.getSettings "nav" none = .ok (Settings0.getDefaultSettings "nav") ∧
      SettingsApp.getSettings "ua" "ap" none =
        .ok (SettingsApp.getDefaultSettings "ua") ∧
      read0NoWindow.Window = none ∧
      Settings0.getSettings "nav" (some read0NoWindow) = .error () :=
  ⟨claim_C10_corrected.1 "nav", claim_C10_corrected.2.1 "ua" "ap", rfl,
    claim_C10_corrected.2.2.1 "nav" read0NoWindow (Or.inl rfl)⟩
